import Mathlib

/-!
# Verification of the Monte Carlo schedule simulation and risk-impact engine

Shallow embedding of `modules/simulation/risk_simulator.py` (the analytical
core: `run_monte_carlo_simulation`, `analyze_risk_impacts`,
`convert_level_to_score`, `calculate_risk_score`, `generate_impact_level`,
the mitigation-effectiveness computation inside `show_mitigation_strategies`,
and the `np.percentile` confidence-level helper used by
`show_monte_carlo_simulation`).

Modelling conventions:
* Python floats are modelled as exact rationals `ℚ`; decimal literals such as
  `0.8`, `0.4`, `4.5`, `0.66`, `0.33` become the exact rationals
  `4/5`, `2/5`, `9/2`, `66/100`, `33/100`.
* Calls to `random.random()` are modelled by explicit rational parameters
  (streams `ℕ → ℚ`, indexed by loop position), so every function is a pure
  function of its inputs and its random draws.
* `math.sqrt` (used inside the triangular sampler only in the
  non-degenerate branch) is abstracted as a function parameter `sqrtFn`;
  no claim below depends on its value.
* Calendar dates are modelled as rational day-offsets from an arbitrary
  anchor (`datetime.datetime.now()` in the source); `date + timedelta(days=d)`
  becomes `anchor + d`.
* Python `dict.get(key, default)` on risk records is modelled by `Option`
  fields read with `Option.getD`.
-/

namespace RiskSim

/-- A task as consumed by `run_monte_carlo_simulation`: the simulator reads
only `task.get('duration', 0)`, modelled as a required rational field. -/
structure Task where
  duration : ℚ
deriving DecidableEq, Repr

/-- A risk record; each field models `risk.get(field, default)` access on the
Python dictionary, so absent keys are `none`. -/
structure Risk where
  description : Option String := none
  severity : Option String := none
  probability : Option String := none
  impact : Option String := none
  category : Option String := none
  mitigation : Option String := none
deriving DecidableEq, Repr

/-- Result bundle returned by `run_monte_carlo_simulation`
(`{'durations': ..., 'completion_dates': ...}`), with completion dates as
day-offsets from the same anchor the simulator used. -/
structure SimResult where
  durations : List ℚ
  completion_dates : List ℚ
deriving DecidableEq, Repr

/-- Python's `str.lower()`, character by character (the strings involved are
ASCII).  Defined by a structural map over the characters so that it
evaluates by kernel reduction. -/
def py_lower (s : String) : String := String.mk (s.data.map Char.toLower)

/-- `convert_level_to_score` (risk_simulator.py lines 787-806): lower-case the
level text, map high/h to 3, medium/med/m to 2, low/l to 1, anything else
to 2. -/
def convert_level_to_score (level : String) : ℚ :=
  let level_lower := py_lower level
  if level_lower = "high" ∨ level_lower = "h" then 3
  else if level_lower = "medium" ∨ level_lower = "med" ∨ level_lower = "m" then 2
  else if level_lower = "low" ∨ level_lower = "l" then 1
  else 2

/-- `calculate_risk_score` (lines 772-785): the product of the scores of the
`probability` and `impact` fields (each defaulting to `'Medium'`). -/
def calculate_risk_score (risk : Risk) : ℚ :=
  convert_level_to_score (risk.probability.getD "Medium")
    * convert_level_to_score (risk.impact.getD "Medium")

/-- Model of CPython's `random.triangular(low, high, mode)` where `u` is the
underlying `random.random()` draw: when `high == low` the computation of
`(mode - low)/(high - low)` raises `ZeroDivisionError`, which the library
catches by returning `low`; otherwise the sample is produced by inverse-CDF
transform using `math.sqrt` (abstracted as `sqrtFn`). -/
def pyTriangular (sqrtFn : ℚ → ℚ) (u low high mode : ℚ) : ℚ :=
  if high = low then low
  else
    let c := (mode - low) / (high - low)
    if u > c then high + (low - high) * sqrtFn ((1 - u) * (1 - c))
    else low + (high - low) * sqrtFn (u * c)

/-- The per-task sampling step of the Monte Carlo loop (lines 605-611):
`random.triangular(d*(1-uncertainty), d*(1+uncertainty), d)`. -/
def sample_task_duration (sqrtFn : ℚ → ℚ) (u base_duration uncertainty : ℚ) : ℚ :=
  pyTriangular sqrtFn u (base_duration * (1 - uncertainty))
    (base_duration * (1 + uncertainty)) base_duration

/-- `run_monte_carlo_simulation` (lines 576-627): for each of
`num_iterations` trials, sample every task duration from the triangular
distribution, sum the samples into a total duration, and record the total
together with `baseline_start + timedelta(days=total)`.  `rand it i` is the
`random.random()` draw consumed by `random.triangular` for task `i` of trial
`it`; `anchor` is the `datetime.datetime.now()` baseline.  The function
performs no input validation. -/
def run_monte_carlo_simulation (sqrtFn : ℚ → ℚ) (rand : ℕ → ℕ → ℚ) (anchor : ℚ)
    (tasks : List Task) (uncertainty : ℚ) (num_iterations : ℕ) : SimResult :=
  let baseline_durations := tasks.map Task.duration
  let durations := (List.range num_iterations).map (fun it =>
    (baseline_durations.enum.map (fun p =>
      sample_task_duration sqrtFn (rand it p.1) p.2 uncertainty)).sum)
  { durations := durations
    completion_dates := durations.map (fun d => anchor + d) }

/-- The linear-interpolation step of numpy's percentile on an already sorted
array `s`: at fractional index `h`, interpolate between the entry at
`⌊h⌋` and the next entry (clipped to the last index). -/
def np_interp (s : List ℚ) (h : ℚ) : ℚ :=
  let i := ⌊h⌋₊
  let lo := s.getD i 0
  let hi := s.getD (min (i + 1) (s.length - 1)) 0
  lo + (h - (i : ℚ)) * (hi - lo)

/-- Model of `np.percentile(a, q)` with the default linear-interpolation
method, as called in `show_monte_carlo_simulation` (line 113): sort the data
ascending and interpolate at fractional index `h = (n-1)*q/100`.  The
ascending sort is rendered as insertion sort; over a linear order every
sorting algorithm produces the same sorted array, so this is exactly the
sorted array numpy uses. -/
def np_percentile (a : List ℚ) (q : ℚ) : ℚ :=
  let s := a.insertionSort (· ≤ ·)
  np_interp s (((s.length : ℚ) - 1) * q / 100)

/-- The `category_impact` table of `generate_impact_level` (lines 822-872):
per risk category, the impact-probability weight of each objective. -/
def category_impact : List (String × List (String × ℚ)) :=
  [("technical",
     [("Schedule", 7/10), ("Budget", 5/10), ("Scope", 3/10),
      ("Quality", 8/10), ("Resources", 4/10)]),
   ("schedule",
     [("Schedule", 9/10), ("Budget", 6/10), ("Scope", 3/10),
      ("Quality", 4/10), ("Resources", 5/10)]),
   ("cost",
     [("Schedule", 4/10), ("Budget", 9/10), ("Scope", 5/10),
      ("Quality", 3/10), ("Resources", 6/10)]),
   ("resource",
     [("Schedule", 7/10), ("Budget", 5/10), ("Scope", 3/10),
      ("Quality", 6/10), ("Resources", 9/10)]),
   ("scope",
     [("Schedule", 6/10), ("Budget", 7/10), ("Scope", 9/10),
      ("Quality", 5/10), ("Resources", 4/10)]),
   ("quality",
     [("Schedule", 5/10), ("Budget", 4/10), ("Scope", 3/10),
      ("Quality", 9/10), ("Resources", 4/10)]),
   ("external",
     [("Schedule", 7/10), ("Budget", 6/10), ("Scope", 5/10),
      ("Quality", 4/10), ("Resources", 6/10)])]

/-- The `default_impact` table (lines 875-881), used for categories missing
from `category_impact`. -/
def default_impact : List (String × ℚ) :=
  [("Schedule", 6/10), ("Budget", 6/10), ("Scope", 5/10),
   ("Quality", 5/10), ("Resources", 5/10)]

/-- `generate_impact_level` (lines 808-896): look up the category/objective
weight (defaulting to the `default_impact` row, then to `0.5`), form
`adjusted_prob = weight * (base_score/4.5) * (0.8 + 0.4*random.random())`,
and classify `> 0.66 → "High"`, `> 0.33 → "Medium"`, else `"Low"`.
`rand_u` is the `random.random()` draw. -/
def generate_impact_level (rand_u : ℚ) (risk_category objective : String)
    (base_score : ℚ) : String :=
  let category_impacts := (category_impact.lookup risk_category).getD default_impact
  let impact_prob := (category_impacts.lookup objective).getD (5/10)
  let adjusted_prob := impact_prob * (base_score / (9/2)) * (4/5 + 2/5 * rand_u)
  if adjusted_prob > 66/100 then "High"
  else if adjusted_prob > 33/100 then "Medium"
  else "Low"

/-- One row of the impact matrix built by `analyze_risk_impacts`: the Python
dict `{'Risk': name, objective: level, ...}`, modelled as the risk name plus
the (objective, level) pairs in objectives order. -/
structure ImpactRow where
  risk : String
  levels : List (String × String)
deriving DecidableEq, Repr

/-- One entry of `risk_scores` built by `analyze_risk_impacts`
(`{'risk': ..., 'objectives': ..., 'scores': ...}`). -/
structure RiskScore where
  risk : String
  objectives : List String
  scores : List ℚ
deriving DecidableEq, Repr

/-- The `combined_impact` record (`{'objectives': ..., 'impact_scores': ...}`). -/
structure CombinedImpact where
  objectives : List String
  impact_scores : List ℚ
deriving DecidableEq, Repr

/-- The full result of `analyze_risk_impacts`. -/
structure ImpactResults where
  impact_matrix : List ImpactRow
  risk_scores : List RiskScore
  combined_impact : CombinedImpact
deriving DecidableEq, Repr

/-- `analyze_risk_impacts` (lines 629-696).  For each risk: lower-case
severity/probability (default `'Medium'`), form the base score, and for each
objective call `generate_impact_level`, recording the level in the matrix row
and the rescaled score `convert_level_to_score(level.lower()) * 10 / 3` in
the radar vector.  Then for each objective, the combined impact is
`sum(scores) / len(scores) * 10 / 3`, which raises `ZeroDivisionError`
(modelled as `Except.error`) when the matrix has no rows.  `rand ri oi` is
the `random.random()` draw for risk `ri` and objective `oi`. -/
def analyze_risk_impacts (rand : ℕ → ℕ → ℚ) (risks : List Risk)
    (objectives : List String) : Except String ImpactResults :=
  let rows := risks.enum.map (fun rp =>
    let risk := rp.2
    let risk_name := risk.description.getD "Unknown Risk"
    let severity := py_lower (risk.severity.getD "Medium")
    let probability := py_lower (risk.probability.getD "Medium")
    let severity_score := convert_level_to_score severity
    let probability_score := convert_level_to_score probability
    let base_score := severity_score * probability_score
    let risk_category := py_lower (risk.category.getD "")
    let levels := objectives.enum.map (fun op =>
      (op.2, generate_impact_level (rand rp.1 op.1) risk_category op.2 base_score))
    let objective_scores := levels.map (fun pl =>
      convert_level_to_score (py_lower pl.2) * 10 / 3)
    (ImpactRow.mk risk_name levels,
     RiskScore.mk risk_name objectives objective_scores))
  let impact_matrix := rows.map Prod.fst
  let risk_scores := rows.map Prod.snd
  match objectives.mapM (fun objective =>
      let impact_levels := impact_matrix.map (fun row =>
        py_lower ((row.levels.lookup objective).getD ""))
      let impact_scores := impact_levels.map convert_level_to_score
      if impact_scores.length = 0 then Except.error "ZeroDivisionError"
      else Except.ok (impact_scores.sum / (impact_scores.length : ℚ) * 10 / 3)) with
  | Except.error e => Except.error e
  | Except.ok combined_scores =>
      Except.ok
        { impact_matrix := impact_matrix
          risk_scores := risk_scores
          combined_impact :=
            { objectives := objectives, impact_scores := combined_scores } }

/-- One entry of the mitigation `simulation_results` list
(lines 486-493). -/
structure MitigationResult where
  strategy : String
  initial_score : ℚ
  new_score : ℚ
  reduction_percent : ℚ
  cost : ℚ
  cost_effectiveness : ℚ
deriving DecidableEq, Repr

/-- The mitigation-effectiveness loop of `show_mitigation_strategies`
(lines 464-493), before sorting.  `candidates` pairs each strategy text with
its implementation cost (the parallel `strategies` / `implementation_costs`
arrays of the source); `rand1 i` and `rand2 i` are the two `random.random()`
draws of candidate `i`; `probability_reduction` / `impact_reduction` are the
slider percentages (0-100). -/
def mitigation_results_unsorted (rand1 rand2 : ℕ → ℚ) (risk : Risk)
    (candidates : List (String × ℚ))
    (probability_reduction impact_reduction : ℚ) : List MitigationResult :=
  let initial_score := calculate_risk_score risk
  candidates.enum.map (fun cp =>
    let i := cp.1
    let strategy := cp.2.1
    let cost := cp.2.2
    let prob_effectiveness := probability_reduction / 100 * (4/5 + 2/5 * rand1 i)
    let impact_effectiveness := impact_reduction / 100 * (4/5 + 2/5 * rand2 i)
    let new_prob := convert_level_to_score (risk.probability.getD "Medium")
      * (1 - prob_effectiveness)
    let new_impact := convert_level_to_score (risk.impact.getD "Medium")
      * (1 - impact_effectiveness)
    let new_score := new_prob * new_impact
    let reduction := (initial_score - new_score) / initial_score * 100
    let cost_effectiveness := if cost > 0 then reduction / (cost / 1000) else 0
    { strategy := strategy
      initial_score := initial_score
      new_score := new_score
      reduction_percent := reduction
      cost := cost
      cost_effectiveness := cost_effectiveness })

/-- The descending cost-effectiveness ordering used by
`simulation_results.sort(key=lambda x: x['cost_effectiveness'], reverse=True)`. -/
def ce_ge (a b : MitigationResult) : Bool :=
  decide (b.cost_effectiveness ≤ a.cost_effectiveness)

/-- The sorted mitigation results (line 496): Python's `list.sort` is stable,
and with `reverse=True` it orders descending by the key while keeping tied
elements in their original relative order, which is exactly a stable merge
sort under `ce_ge`. -/
def simulate_mitigation (rand1 rand2 : ℕ → ℚ) (risk : Risk)
    (candidates : List (String × ℚ))
    (probability_reduction impact_reduction : ℚ) : List MitigationResult :=
  (mitigation_results_unsorted rand1 rand2 risk candidates
    probability_reduction impact_reduction).mergeSort ce_ge

/-! ## Helper lemmas -/

/-- With zero uncertainty the triangular bounds collapse onto the baseline
duration, and the degenerate branch returns it unchanged. -/
lemma sample_task_duration_zero_uncertainty (sqrtFn : ℚ → ℚ) (u d : ℚ) :
    sample_task_duration sqrtFn u d 0 = d := by
  simp [sample_task_duration, pyTriangular]

/-- A zero baseline duration collapses the triangular bounds to the single
point 0, whatever the uncertainty; the degenerate branch returns 0. -/
lemma sample_task_duration_zero_duration (sqrtFn : ℚ → ℚ) (u unc : ℚ) :
    sample_task_duration sqrtFn u 0 unc = 0 := by
  simp [sample_task_duration, pyTriangular]

/-- Mapping a pointwise-constant function over a list yields a replicate. -/
lemma map_eq_replicate_of_const {α β : Type} (l : List α) (f : α → β) (b : β)
    (h : ∀ a, f a = b) : l.map f = List.replicate l.length b := by
  induction l with
  | nil => rfl
  | cons x xs ih => simp [h, ih, List.replicate_succ]

/-- `generate_impact_level` only ever returns one of the three level
names. -/
lemma generate_impact_level_mem (u : ℚ) (c o : String) (b : ℚ) :
    generate_impact_level u c o b = "High" ∨
    generate_impact_level u c o b = "Medium" ∨
    generate_impact_level u c o b = "Low" := by
  unfold generate_impact_level
  dsimp only
  split_ifs <;> simp

/-! ## Claims -/

/-- C1: the claim reads "with an empty task list, or with an iteration count
less than 1, the simulator fails with an InvalidInput error ... rather than
returning a result bundle."  The code has no validation: this theorem shows
a concrete run on an empty task list returning a full 5-trial result bundle
of zero durations, and a run with 0 iterations returning an empty result
bundle — never an error. -/
theorem C1_counterexample :
    run_monte_carlo_simulation id (fun _ _ => 0) 0 [] (1/5) 5 =
      { durations := [0, 0, 0, 0, 0], completion_dates := [0, 0, 0, 0, 0] } ∧
    run_monte_carlo_simulation id (fun _ _ => 0) 0 [⟨10⟩] (1/5) 0 =
      { durations := [], completion_dates := [] } := by
  constructor
  · with_unfolding_all decide
  · with_unfolding_all decide

/-- C1 (amended): `run_monte_carlo_simulation` performs no input validation
and never fails: an empty task list yields a result bundle of
`num_iterations` trials each of total duration 0 (completing on the anchor
date), and an iteration count below 1 yields a result bundle with empty
arrays.  (The empty-task warning is issued by the UI caller before invoking
the simulator, not by the simulator.) -/
theorem C1_amended (sqrtFn : ℚ → ℚ) (rand : ℕ → ℕ → ℚ) (anchor u : ℚ)
    (N : ℕ) (tasks : List Task) :
    run_monte_carlo_simulation sqrtFn rand anchor [] u N =
      { durations := List.replicate N 0
        completion_dates := List.replicate N anchor } ∧
    run_monte_carlo_simulation sqrtFn rand anchor tasks u 0 =
      { durations := [], completion_dates := [] } := by
  constructor
  · simp [run_monte_carlo_simulation, List.map_const', SimResult.mk.injEq,
      List.map_replicate]
  · simp [run_monte_carlo_simulation]

/-- C2: the claim reads "calling the risk impact scorer with an empty risk
list succeeds and returns an empty impact matrix and a combinedImpact of
zeros ... rather than failing."  In the code the combined-impact step divides
by `len(impact_scores) = 0`, so the call raises `ZeroDivisionError` instead:
here with one objective it returns the error, not a result. -/
theorem C2_counterexample :
    analyze_risk_impacts (fun _ _ => 1/2) [] ["Schedule"] =
      Except.error "ZeroDivisionError" := by
  with_unfolding_all rfl

/-- C2 (amended): for every non-empty list of objectives, calling
`analyze_risk_impacts` with an empty risk list raises `ZeroDivisionError`
while averaging impact scores over zero risks; no result is returned. -/
theorem C2_amended (rand : ℕ → ℕ → ℚ) (objectives : List String)
    (h : objectives ≠ []) :
    analyze_risk_impacts rand [] objectives =
      Except.error "ZeroDivisionError" := by
  cases objectives with
  | nil => exact absurd rfl h
  | cons o os => simp [analyze_risk_impacts, List.mapM.loop, Bind.bind, Except.bind]

/-- C2 (amended) witness: the amended theorem at a concrete non-empty
objectives list. -/
theorem C2_witness :
    (["Budget"] ≠ ([] : List String)) ∧
    analyze_risk_impacts (fun _ _ => 1/3) [] ["Budget"] =
      Except.error "ZeroDivisionError" :=
  ⟨by decide, C2_amended (fun _ _ => 1/3) ["Budget"] (by decide)⟩

/-- C3: the claim reads "the initial risk score used for every candidate
equals severityScore(risk) * probabilityScore(risk)".  The code's
`calculate_risk_score` multiplies the `probability` and `impact` fields, not
`severity`: for a risk with severity High, probability High and no impact
field, the mitigation loop uses initial score 3 * 2 = 6 while
severityScore * probabilityScore = 9. -/
theorem C3_counterexample :
    calculate_risk_score { severity := some "High", probability := some "High" } = 6 ∧
    convert_level_to_score "High" * convert_level_to_score "High" = 9 ∧
    (mitigation_results_unsorted (fun _ => 1/2) (fun _ => 1/2)
        { severity := some "High", probability := some "High" }
        [("Add buffer time", 1000)] 50 30).map MitigationResult.initial_score
      = [6] := by
  refine ⟨by with_unfolding_all decide, by with_unfolding_all decide, ?_⟩
  with_unfolding_all decide

/-- C3 (amended): the initial risk score used for every candidate equals
probabilityScore(risk) * impactScore(risk), where both scores use the
Low→1, Medium→2, High→3 mapping of `convert_level_to_score` and read the
risk's `probability` and `impact` fields, each defaulting to Medium when
absent.  The `severity` field plays no role. -/
theorem C3_amended (rand1 rand2 : ℕ → ℚ) (risk : Risk)
    (candidates : List (String × ℚ)) (pr ir : ℚ) :
    (mitigation_results_unsorted rand1 rand2 risk candidates pr ir).map
        MitigationResult.initial_score
      = List.replicate candidates.length
          (convert_level_to_score (risk.probability.getD "Medium")
            * convert_level_to_score (risk.impact.getD "Medium")) := by
  simp only [mitigation_results_unsorted, calculate_risk_score, List.map_map]
  exact Eq.trans (map_eq_replicate_of_const _ _ _ (fun cp => rfl))
    (by rw [List.enum_length]; with_unfolding_all rfl)

/-- C4: with `uncertainty = 0`, every trial's total duration is exactly the
sum of the input task durations and every completion date is the anchor plus
that sum — no variance across the `N` trials, whatever the random draws. -/
theorem C4_zero_uncertainty (sqrtFn : ℚ → ℚ) (rand : ℕ → ℕ → ℚ)
    (anchor : ℚ) (tasks : List Task) (N : ℕ)
    (h1 : tasks ≠ []) (h2 : 1 ≤ N) :
    run_monte_carlo_simulation sqrtFn rand anchor tasks 0 N =
      { durations := List.replicate N ((tasks.map Task.duration).sum)
        completion_dates :=
          List.replicate N (anchor + (tasks.map Task.duration).sum) } := by
  have hmap : ∀ it : ℕ,
      ((tasks.map Task.duration).enum.map (fun p =>
        sample_task_duration sqrtFn (rand it p.1) p.2 0)).sum
        = (tasks.map Task.duration).sum := by
    intro it
    have : ((tasks.map Task.duration).enum.map (fun p =>
        sample_task_duration sqrtFn (rand it p.1) p.2 0))
        = (tasks.map Task.duration).enum.map Prod.snd := by
      apply List.map_congr_left
      intro p _
      exact sample_task_duration_zero_uncertainty sqrtFn (rand it p.1) p.2
    rw [this, List.enum_map_snd]
  simp only [run_monte_carlo_simulation, SimResult.mk.injEq]
  constructor
  · rw [List.map_congr_left (fun it _ => hmap it), List.map_const',
      List.length_range]
  · rw [List.map_congr_left (fun it _ => hmap it), List.map_const',
      List.length_range, List.map_replicate]

/-- C4 witness: the spec's concrete scenario — durations [10, 20, 5],
zero uncertainty, 100 iterations: all 100 trials report total duration 35
and completion 35 days after the anchor. -/
theorem C4_witness :
    ([⟨10⟩, ⟨20⟩, ⟨5⟩] ≠ ([] : List Task)) ∧ 1 ≤ 100 ∧
    run_monte_carlo_simulation id (fun _ _ => 1/2) 0 [⟨10⟩, ⟨20⟩, ⟨5⟩] 0 100 =
      { durations := List.replicate 100 35
        completion_dates := List.replicate 100 35 } := by
  refine ⟨by decide, by decide, ?_⟩
  have h := C4_zero_uncertainty id (fun _ _ => 1/2) 0 [⟨10⟩, ⟨20⟩, ⟨5⟩] 100
    (by decide) (by decide)
  rw [h]
  norm_num

/-- C5: the simulation result contains exactly `N` durations and exactly `N`
completion dates, and the i-th completion date is the anchor plus the i-th
duration, for every input. -/
theorem C5_trial_counts (sqrtFn : ℚ → ℚ) (rand : ℕ → ℕ → ℚ)
    (anchor uncertainty : ℚ) (tasks : List Task) (N : ℕ)
    (h1 : tasks ≠ []) (h2 : 1 ≤ N) :
    (run_monte_carlo_simulation sqrtFn rand anchor tasks uncertainty N).durations.length = N ∧
    (run_monte_carlo_simulation sqrtFn rand anchor tasks uncertainty N).completion_dates.length = N ∧
    (run_monte_carlo_simulation sqrtFn rand anchor tasks uncertainty N).completion_dates
      = (run_monte_carlo_simulation sqrtFn rand anchor tasks uncertainty N).durations.map
          (fun d => anchor + d) := by
  refine ⟨?_, ?_, ?_⟩ <;> simp [run_monte_carlo_simulation]

/-- C5 witness: the trial-count theorem at a concrete input. -/
theorem C5_witness :
    ([⟨7⟩] ≠ ([] : List Task)) ∧ 1 ≤ 3 ∧
    ((run_monte_carlo_simulation id (fun _ _ => 1/2) 4 [⟨7⟩] (1/5) 3).durations.length = 3 ∧
     (run_monte_carlo_simulation id (fun _ _ => 1/2) 4 [⟨7⟩] (1/5) 3).completion_dates.length = 3 ∧
     (run_monte_carlo_simulation id (fun _ _ => 1/2) 4 [⟨7⟩] (1/5) 3).completion_dates
       = (run_monte_carlo_simulation id (fun _ _ => 1/2) 4 [⟨7⟩] (1/5) 3).durations.map
           (fun d => 4 + d)) :=
  ⟨by decide, by decide,
    C5_trial_counts id (fun _ _ => 1/2) 4 (1/5) [⟨7⟩] 3 (by decide) (by decide)⟩

/-- C6: a task of duration 0 with nonzero uncertainty is a valid degenerate
case: the triangular sampling step deterministically returns 0 (the
degenerate low == high branch, Python's caught ZeroDivisionError, is taken
and no exception escapes), and a simulation over such a task returns all-zero
durations rather than raising. -/
theorem C6_degenerate_zero (sqrtFn : ℚ → ℚ) (rand : ℕ → ℕ → ℚ)
    (anchor u unc : ℚ) (N : ℕ) (h : unc ≠ 0) :
    sample_task_duration sqrtFn u 0 unc = 0 ∧
    (run_monte_carlo_simulation sqrtFn rand anchor [⟨0⟩] unc N).durations
      = List.replicate N 0 := by
  refine ⟨sample_task_duration_zero_duration sqrtFn u unc, ?_⟩
  simp [run_monte_carlo_simulation, sample_task_duration_zero_duration,
    List.map_const']

/-- C6 witness: the degenerate-distribution theorem at a concrete nonzero
uncertainty. -/
theorem C6_witness :
    ((1:ℚ)/5 ≠ 0) ∧
    (sample_task_duration id (3/4) 0 (1/5) = 0 ∧
     (run_monte_carlo_simulation id (fun _ _ => 3/4) 2 [⟨0⟩] (1/5) 4).durations
       = List.replicate 4 0) :=
  ⟨by norm_num,
    C6_degenerate_zero id (fun _ _ => 3/4) 2 (3/4) (1/5) 4 (by norm_num)⟩

/-- C7: the claim reads "maps Low to 1, Medium to 2, and High to 3
case-insensitively, and maps every unrecognized string to 2".  The converter
also recognizes the abbreviations h/med/m/l: the string "h" is none of
low/medium/high, yet it scores 3, not the claimed default 2. -/
theorem C7_counterexample :
    ¬ (py_lower "h" = "low" ∨ py_lower "h" = "medium" ∨ py_lower "h" = "high") ∧
    convert_level_to_score "h" = 3 := by
  constructor
  · with_unfolding_all decide
  · with_unfolding_all decide

/-- C7 (amended): `convert_level_to_score` lower-cases its input and maps
high and its abbreviation h to 3, medium/med/m to 2, low/l to 1; every
string outside this recognized set maps to 2 (Medium) rather than being
rejected — in particular "unknown_string" scores 2, and the canonical level
names score case-insensitively. -/
theorem C7_amended :
    (∀ s : String,
      py_lower s ∉ (["high", "h", "medium", "med", "m", "low", "l"] : List String) →
      convert_level_to_score s = 2) ∧
    convert_level_to_score "Low" = 1 ∧ convert_level_to_score "lOw" = 1 ∧
    convert_level_to_score "Medium" = 2 ∧ convert_level_to_score "MEDIUM" = 2 ∧
    convert_level_to_score "High" = 3 ∧ convert_level_to_score "hIgH" = 3 ∧
    convert_level_to_score "unknown_string" = 2 := by
  refine ⟨?_, by with_unfolding_all decide, by with_unfolding_all decide,
    by with_unfolding_all decide, by with_unfolding_all decide,
    by with_unfolding_all decide, by with_unfolding_all decide,
    by with_unfolding_all decide⟩
  intro s h
  simp only [List.mem_cons, List.not_mem_nil, or_false, not_or] at h
  obtain ⟨h1, h2, h3, h4, h5, h6, h7⟩ := h
  simp [convert_level_to_score, h1, h2, h3, h4, h5, h6, h7]

/-- C7 (amended) witness: the default branch applied at the concrete
unrecognized string of the spec's test property 8. -/
theorem C7_witness :
    (py_lower "unknown_string" ∉
      (["high", "h", "medium", "med", "m", "low", "l"] : List String)) ∧
    convert_level_to_score "unknown_string" = 2 :=
  ⟨by with_unfolding_all decide,
    C7_amended.1 "unknown_string" (by with_unfolding_all decide)⟩

/-- C10: in every result of `analyze_risk_impacts`, the radar-score entry of
each risk is aligned with its impact-matrix row: the objectives vector is
the input objectives list, the matrix row records one (objective, level)
pair per objective in the same order, the j-th radar score equals the
numeric score of that row's j-th impact level scaled by 10/3, and every
radar score is one of 10/3, 20/3, 10. -/
theorem C10_radar_alignment (rand : ℕ → ℕ → ℚ) (risks : List Risk)
    (objectives : List String) (res : ImpactResults)
    (h : analyze_risk_impacts rand risks objectives = Except.ok res) :
    List.Forall₂ (fun (rs : RiskScore) (row : ImpactRow) =>
      rs.objectives = objectives ∧
      row.levels.map Prod.fst = objectives ∧
      rs.scores = row.levels.map (fun pl =>
        convert_level_to_score (py_lower pl.2) * 10 / 3) ∧
      ∀ x ∈ rs.scores, x = 10/3 ∨ x = 20/3 ∨ x = 10)
      res.risk_scores res.impact_matrix := by
  simp only [analyze_risk_impacts] at h
  split at h
  · simp at h
  · injection h with h
    subst h
    dsimp only
    rw [List.forall₂_map_left_iff, List.forall₂_map_right_iff, List.forall₂_same]
    intro pair hpair
    obtain ⟨rp, hrp, rfl⟩ := List.mem_map.1 hpair
    refine ⟨rfl, ?_, rfl, ?_⟩
    · rw [List.map_map]
      exact List.enum_map_snd objectives
    · intro x hx
      obtain ⟨pl, hpl, rfl⟩ := List.mem_map.1 hx
      obtain ⟨op, hop, rfl⟩ := List.mem_map.1 hpl
      rcases generate_impact_level_mem (rand rp.1 op.1)
          (py_lower (rp.2.category.getD "")) op.2
          (convert_level_to_score (py_lower (rp.2.severity.getD "Medium")) *
            convert_level_to_score (py_lower (rp.2.probability.getD "Medium")))
        with hg | hg | hg <;> rw [hg]
      · right; right
        have : convert_level_to_score (py_lower "High") = 3 := by
          with_unfolding_all decide
        rw [this]; norm_num
      · right; left
        have : convert_level_to_score (py_lower "Medium") = 2 := by
          with_unfolding_all decide
        rw [this]; norm_num
      · left
        have : convert_level_to_score (py_lower "Low") = 1 := by
          with_unfolding_all decide
        rw [this]; norm_num

/-- C10 witness: the alignment at a concrete scorer run — one schedule-risk
of severity/probability High against the single objective Schedule, jitter
draw 1/2 (so the jitter multiplier is exactly 1): it classifies High and
the radar score is 10. -/
theorem C10_witness :
    (analyze_risk_impacts (fun _ _ => 1/2)
        [{ description := some "R1", severity := some "High",
           probability := some "High", category := some "schedule" }]
        ["Schedule"] =
      Except.ok
        { impact_matrix := [{ risk := "R1", levels := [("Schedule", "High")] }]
          risk_scores :=
            [{ risk := "R1", objectives := ["Schedule"], scores := [10] }]
          combined_impact :=
            { objectives := ["Schedule"], impact_scores := [10] } }) ∧
    List.Forall₂ (fun (rs : RiskScore) (row : ImpactRow) =>
      rs.objectives = ["Schedule"] ∧
      row.levels.map Prod.fst = ["Schedule"] ∧
      rs.scores = row.levels.map (fun pl =>
        convert_level_to_score (py_lower pl.2) * 10 / 3) ∧
      ∀ x ∈ rs.scores, x = 10/3 ∨ x = 20/3 ∨ x = 10)
      (ImpactResults.risk_scores
        { impact_matrix := [{ risk := "R1", levels := [("Schedule", "High")] }]
          risk_scores :=
            [{ risk := "R1", objectives := ["Schedule"], scores := [10] }]
          combined_impact :=
            { objectives := ["Schedule"], impact_scores := [10] } })
      (ImpactResults.impact_matrix
        { impact_matrix := [{ risk := "R1", levels := [("Schedule", "High")] }]
          risk_scores :=
            [{ risk := "R1", objectives := ["Schedule"], scores := [10] }]
          combined_impact :=
            { objectives := ["Schedule"], impact_scores := [10] } }) :=
  ⟨by with_unfolding_all rfl,
    C10_radar_alignment (fun _ _ => 1/2)
      [{ description := some "R1", severity := some "High",
         probability := some "High", category := some "schedule" }]
      ["Schedule"] _ (by with_unfolding_all rfl)⟩

/-- The descending cost-effectiveness comparison is transitive. -/
lemma ce_ge_trans (a b c : MitigationResult)
    (hab : ce_ge a b = true) (hbc : ce_ge b c = true) : ce_ge a c = true := by
  simp only [ce_ge, decide_eq_true_eq] at *
  exact le_trans hbc hab

/-- The descending cost-effectiveness comparison is total. -/
lemma ce_ge_total (a b : MitigationResult) : ce_ge a b || ce_ge b a := by
  simp only [ce_ge, Bool.or_eq_true, decide_eq_true_eq]
  exact le_total b.cost_effectiveness a.cost_effectiveness

/-- C9: the ranked mitigation output is sorted in descending order of
cost-effectiveness, and any two candidates that appear in a given order in
the unsorted (insertion-order) results and have identical cost-effectiveness
appear in that same order in the ranked output — the sort is stable. -/
theorem C9_ranking_stability (rand1 rand2 : ℕ → ℚ) (risk : Risk)
    (candidates : List (String × ℚ)) (pr ir : ℚ) :
    List.Pairwise (fun a b : MitigationResult =>
      b.cost_effectiveness ≤ a.cost_effectiveness)
      (simulate_mitigation rand1 rand2 risk candidates pr ir) ∧
    ∀ a b : MitigationResult,
      a.cost_effectiveness = b.cost_effectiveness →
      [a, b].Sublist (mitigation_results_unsorted rand1 rand2 risk candidates pr ir) →
      [a, b].Sublist (simulate_mitigation rand1 rand2 risk candidates pr ir) := by
  constructor
  · have hs := List.sorted_mergeSort ce_ge_trans ce_ge_total
      (mitigation_results_unsorted rand1 rand2 risk candidates pr ir)
    exact hs.imp (fun hab => by
      simpa only [ce_ge, decide_eq_true_eq] using hab)
  · intro a b hab hsub
    apply List.sublist_mergeSort ce_ge_trans ce_ge_total ?_ hsub
    refine List.pairwise_cons.2 ⟨?_, List.pairwise_singleton _ _⟩
    intro y hy
    rw [List.mem_singleton] at hy
    subst hy
    show ce_ge a y = true
    simp [ce_ge, hab]

/-- C9 witness: two candidates with equal cost (1000) and equal random
draws produce identical cost-effectiveness 75; they appear in input order
in the ranked output. -/
theorem C9_witness :
    (MitigationResult.cost_effectiveness ⟨"A", 9, 9/4, 75, 1000, 75⟩ =
      MitigationResult.cost_effectiveness ⟨"B", 9, 9/4, 75, 1000, 75⟩) ∧
    List.Sublist [⟨"A", 9, 9/4, 75, 1000, 75⟩, ⟨"B", 9, 9/4, 75, 1000, 75⟩]
      (mitigation_results_unsorted (fun _ => 1/2) (fun _ => 1/2)
        { probability := some "High", impact := some "High" }
        [("A", 1000), ("B", 1000)] 50 50) ∧
    List.Sublist [⟨"A", 9, 9/4, 75, 1000, 75⟩, ⟨"B", 9, 9/4, 75, 1000, 75⟩]
      (simulate_mitigation (fun _ => 1/2) (fun _ => 1/2)
        { probability := some "High", impact := some "High" }
        [("A", 1000), ("B", 1000)] 50 50) := by
  have h1 : mitigation_results_unsorted (fun _ => 1/2) (fun _ => 1/2)
      { probability := some "High", impact := some "High" }
      [("A", 1000), ("B", 1000)] 50 50
      = [⟨"A", 9, 9/4, 75, 1000, 75⟩, ⟨"B", 9, 9/4, 75, 1000, 75⟩] := by
    with_unfolding_all rfl
  refine ⟨rfl, ?_, ?_⟩
  · rw [h1]
  · exact (C9_ranking_stability (fun _ => 1/2) (fun _ => 1/2)
      { probability := some "High", impact := some "High" }
      [("A", 1000), ("B", 1000)] 50 50).2 _ _ rfl
      (by rw [h1])

/-- Reading a sorted list at a larger in-bounds index gives a larger (or
equal) value. -/
lemma sorted_getD_mono {s : List ℚ} (hs : List.Pairwise (· ≤ ·) s)
    {i j : ℕ} (hij : i ≤ j) (hj : j < s.length) :
    s.getD i 0 ≤ s.getD j 0 := by
  rcases Nat.eq_or_lt_of_le hij with rfl | hlt
  · exact le_refl _
  · have hi : i < s.length := Nat.lt_trans hlt hj
    rw [List.getD_eq_getElem?_getD, List.getD_eq_getElem?_getD,
      List.getElem?_eq_getElem hi, List.getElem?_eq_getElem hj,
      Option.getD_some, Option.getD_some]
    exact List.pairwise_iff_getElem.1 hs i j hi hj hlt

/-- Monotonicity of the linear-interpolation step over a sorted non-empty
array, for fractional indices within range. -/
lemma np_interp_mono {s : List ℚ} (hs : List.Pairwise (· ≤ ·) s)
    (hne : s ≠ []) {h1 h2 : ℚ} (h0 : 0 ≤ h1) (h12 : h1 ≤ h2)
    (hub : h2 ≤ (s.length : ℚ) - 1) :
    np_interp s h1 ≤ np_interp s h2 := by
  have hlen : 1 ≤ s.length := List.length_pos.2 hne
  have h02 : 0 ≤ h2 := le_trans h0 h12
  have hn1cast : ((s.length - 1 : ℕ) : ℚ) = (s.length : ℚ) - 1 := by
    push_cast [hlen]
    ring
  have hi1le : (⌊h1⌋₊ : ℚ) ≤ h1 := Nat.floor_le h0
  have hi2le : (⌊h2⌋₊ : ℚ) ≤ h2 := Nat.floor_le h02
  have hlt1 : h1 < ⌊h1⌋₊ + 1 := Nat.lt_floor_add_one h1
  have hlt2 : h2 < ⌊h2⌋₊ + 1 := Nat.lt_floor_add_one h2
  have hi12 : ⌊h1⌋₊ ≤ ⌊h2⌋₊ := Nat.floor_mono h12
  have hi2ub : ⌊h2⌋₊ ≤ s.length - 1 := by
    calc ⌊h2⌋₊ ≤ ⌊((s.length - 1 : ℕ) : ℚ)⌋₊ := Nat.floor_mono (by rw [hn1cast]; exact hub)
    _ = s.length - 1 := Nat.floor_natCast _
  have hi1ub : ⌊h1⌋₊ ≤ s.length - 1 := le_trans hi12 hi2ub
  have hsub : s.length - 1 < s.length := Nat.sub_lt (Nat.lt_of_lt_of_le Nat.zero_lt_one hlen) Nat.zero_lt_one
  have hi1n : ⌊h1⌋₊ < s.length := Nat.lt_of_le_of_lt hi1ub hsub
  have hi2n : ⌊h2⌋₊ < s.length := Nat.lt_of_le_of_lt hi2ub hsub
  have hj1n : min (⌊h1⌋₊ + 1) (s.length - 1) < s.length :=
    Nat.lt_of_le_of_lt (min_le_right _ _) hsub
  have hj2n : min (⌊h2⌋₊ + 1) (s.length - 1) < s.length :=
    Nat.lt_of_le_of_lt (min_le_right _ _) hsub
  have hlo1hi1 : s.getD ⌊h1⌋₊ 0 ≤ s.getD (min (⌊h1⌋₊ + 1) (s.length - 1)) 0 :=
    sorted_getD_mono hs (le_min (Nat.le_succ _) hi1ub) hj1n
  have hlo2hi2 : s.getD ⌊h2⌋₊ 0 ≤ s.getD (min (⌊h2⌋₊ + 1) (s.length - 1)) 0 :=
    sorted_getD_mono hs (le_min (Nat.le_succ _) hi2ub) hj2n
  have hfrac1lo : 0 ≤ h1 - (⌊h1⌋₊ : ℚ) := sub_nonneg.2 hi1le
  have hfrac2lo : 0 ≤ h2 - (⌊h2⌋₊ : ℚ) := sub_nonneg.2 hi2le
  have hfrac1hi : h1 - (⌊h1⌋₊ : ℚ) ≤ 1 := by
    have := hlt1
    push_cast at this ⊢
    linarith
  rcases Nat.eq_or_lt_of_le hi12 with heq | hltf
  · -- same segment: the interpolation is linear with non-negative slope
    simp only [np_interp, ← heq]
    nlinarith [hlo1hi1]
  · -- different segment: pass through the right endpoint of the first
    -- segment and the left endpoint of the second
    have hj1i2 : min (⌊h1⌋₊ + 1) (s.length - 1) ≤ ⌊h2⌋₊ :=
      le_trans (min_le_left _ _) hltf
    have hmid : s.getD (min (⌊h1⌋₊ + 1) (s.length - 1)) 0 ≤ s.getD ⌊h2⌋₊ 0 :=
      sorted_getD_mono hs hj1i2 hi2n
    simp only [np_interp]
    nlinarith [hlo1hi1, hlo2hi2, hmid, hfrac1lo, hfrac1hi, hfrac2lo]

/-- Monotonicity of `np_percentile` in the requested percentile rank. -/
lemma np_percentile_mono (a : List ℚ) (hne : a ≠ []) {p q : ℚ}
    (hp : 0 ≤ p) (hpq : p ≤ q) (hq : q ≤ 100) :
    np_percentile a p ≤ np_percentile a q := by
  have hs : List.Pairwise (· ≤ ·) (a.insertionSort (· ≤ ·)) :=
    List.sorted_insertionSort (· ≤ ·) a
  have hlen : (a.insertionSort (· ≤ ·)).length = a.length :=
    List.length_insertionSort (· ≤ ·) a
  have hsne : a.insertionSort (· ≤ ·) ≠ [] := by
    intro h
    rw [h] at hlen
    exact hne (List.length_eq_zero.1 hlen.symm)
  have hn1 : (0:ℚ) ≤ ((a.insertionSort (· ≤ ·)).length : ℚ) - 1 := by
    have : 1 ≤ (a.insertionSort (· ≤ ·)).length := List.length_pos.2 hsne
    have hcast : (1:ℚ) ≤ ((a.insertionSort (· ≤ ·)).length : ℚ) := by
      exact_mod_cast this
    linarith
  simp only [np_percentile]
  apply np_interp_mono hs hsne
  · positivity
  · gcongr
  · rw [div_le_iff (by norm_num : (0:ℚ) < 100)]
    nlinarith

/-- C8: percentile values of a simulation's durations at increasing
percentile ranks are monotonically non-decreasing:
`percentile(50) ≤ percentile(80) ≤ percentile(90) ≤ percentile(95)`. -/
theorem C8_percentile_monotonicity (sqrtFn : ℚ → ℚ) (rand : ℕ → ℕ → ℚ)
    (anchor uncertainty : ℚ) (tasks : List Task) (N : ℕ)
    (h1 : tasks ≠ []) (h2 : 1 ≤ N) :
    np_percentile (run_monte_carlo_simulation sqrtFn rand anchor tasks uncertainty N).durations 50
      ≤ np_percentile (run_monte_carlo_simulation sqrtFn rand anchor tasks uncertainty N).durations 80 ∧
    np_percentile (run_monte_carlo_simulation sqrtFn rand anchor tasks uncertainty N).durations 80
      ≤ np_percentile (run_monte_carlo_simulation sqrtFn rand anchor tasks uncertainty N).durations 90 ∧
    np_percentile (run_monte_carlo_simulation sqrtFn rand anchor tasks uncertainty N).durations 90
      ≤ np_percentile (run_monte_carlo_simulation sqrtFn rand anchor tasks uncertainty N).durations 95 := by
  have hne : (run_monte_carlo_simulation sqrtFn rand anchor tasks uncertainty N).durations ≠ [] := by
    intro h
    have hlen : (run_monte_carlo_simulation sqrtFn rand anchor tasks uncertainty N).durations.length = N := by
      simp [run_monte_carlo_simulation]
    rw [h] at hlen
    simp at hlen
    omega
  exact ⟨np_percentile_mono _ hne (by norm_num) (by norm_num) (by norm_num),
    np_percentile_mono _ hne (by norm_num) (by norm_num) (by norm_num),
    np_percentile_mono _ hne (by norm_num) (by norm_num) (by norm_num)⟩

/-- C8 witness: percentile monotonicity at a concrete simulation run. -/
theorem C8_witness :
    ([⟨10⟩, ⟨20⟩] ≠ ([] : List Task)) ∧ 1 ≤ 3 ∧
    (np_percentile (run_monte_carlo_simulation id (fun _ _ => 1/2) 0 [⟨10⟩, ⟨20⟩] (1/5) 3).durations 50
       ≤ np_percentile (run_monte_carlo_simulation id (fun _ _ => 1/2) 0 [⟨10⟩, ⟨20⟩] (1/5) 3).durations 80 ∧
     np_percentile (run_monte_carlo_simulation id (fun _ _ => 1/2) 0 [⟨10⟩, ⟨20⟩] (1/5) 3).durations 80
       ≤ np_percentile (run_monte_carlo_simulation id (fun _ _ => 1/2) 0 [⟨10⟩, ⟨20⟩] (1/5) 3).durations 90 ∧
     np_percentile (run_monte_carlo_simulation id (fun _ _ => 1/2) 0 [⟨10⟩, ⟨20⟩] (1/5) 3).durations 90
       ≤ np_percentile (run_monte_carlo_simulation id (fun _ _ => 1/2) 0 [⟨10⟩, ⟨20⟩] (1/5) 3).durations 95) :=
  ⟨by decide, by decide,
    C8_percentile_monotonicity id (fun _ _ => 1/2) 0 (1/5) [⟨10⟩, ⟨20⟩] 3
      (by decide) (by decide)⟩

end RiskSim
